import Mathlib

/-!
Shallow embedding of `src/tado/tado.py` (class `Tado`): an asynchronous OAuth2
password-grant client for the Tado cloud API.

Modelling conventions:
* Time (`time.time()`, a float in the source) is modelled as `Int`; each call to
  `time.time()` inside an operation is an explicit parameter (`now1`, `now2`, ...)
  in source order.
* One network attempt (an `aiohttp` `post`/`request` wrapped in
  `asyncio.timeout(self.request_timeout)`) is modelled by a `NetOutcome`
  parameter: either a completed `HttpResponse` or `timeout` (the attempt
  exceeded the configured request timeout and `asyncio.TimeoutError` fired).
* `aiohttp`'s `ClientResponse.raise_for_status` raises `ClientResponseError`
  exactly when `status >= 400`; `raise_for_status` below embeds that documented
  behaviour.
* `ClientResponse.json()` (parsing of the token-endpoint body) is an external
  JSON primitive; its outcome is carried on the response as
  `jsonTok : Option TokenJson` (`none` means `json()`/key lookup failed).
* Python runtime faults that the source can hit (arithmetic on `None`,
  attribute access on `None` or on a missing attribute, `[0]` on an empty
  list) are explicit `TadoError.py*` values.
* Every operation returns `(result, final object state, list of network calls
  issued)`, threading the mutable `Tado` object explicitly.  The call trace is
  the observable used for "performs no network call" / "exactly one request".
-/

/-- Parsed token-endpoint JSON body: the three fields the source reads
(`access_token`, `refresh_token`, `expires_in`). -/
structure TokenJson where
  access_token : String
  refresh_token : String
  expires_in : Int
  deriving DecidableEq

/-- An HTTP response as the source observes it: status, `content-type` header,
body text, and the outcome of `json()` on the body (see module comment). -/
structure HttpResponse where
  status : Nat
  contentType : String
  body : String
  jsonTok : Option TokenJson := none
  deriving DecidableEq

/-- Outcome of one network attempt under `asyncio.timeout`. -/
inductive NetOutcome where
  | resp (r : HttpResponse)
  | timeout
  deriving DecidableEq

/-- The errors an operation can raise: the `tado.exceptions` hierarchy
(`TadoConnectionError`, `TadoAuthenticationError`, `TadoBadRequestError`,
`TadoForbiddenError`, plain `TadoException`) plus the Python runtime faults
reachable in the source. -/
inductive TadoError where
  | tadoConnectionError (msg : String)
  | tadoAuthenticationError (msg : String)
  | tadoBadRequestError (msg : String)
  | tadoForbiddenError (msg : String)
  | tadoException (msg : String)
  | pyTypeError (msg : String)
  | pyAttributeError (msg : String)
  | pyIndexError (msg : String)
  | pyJsonError (msg : String)
  deriving DecidableEq

/-- One network call issued by the client, as recorded in the trace:
a password-grant token POST, a refresh-grant token POST, or an authenticated
API request (URL plus `Authorization` header value). -/
inductive NetCall where
  | tokenPassword (username password : String)
  | tokenRefresh (refresh_token : String)
  | api (url auth : String)
  deriving DecidableEq

/-- A home entry of the authenticated user (`get_me.homes[i]`); only the `id`
field is read by the source. -/
structure Home where
  id : Int
  deriving DecidableEq

/-- The `GetMe` record: the source reads only its `homes` list. -/
structure GetMe where
  homes : List Home
  deriving DecidableEq

/-- Opaque typed device record produced by the accessor layer. -/
structure Device where
  raw : String
  deriving DecidableEq

/-- Python `str(x)` on an `Optional[str]`: `None` prints as `"None"` inside an
f-string. -/
def pyStr : Option String → String
  | none => "None"
  | some x => x

/-- Python `str(x)` on an `Optional[int]` inside an f-string. -/
def pyIntStr : Option Int → String
  | none => "None"
  | some i => toString i

/-- Boolean test that `needle` is a leading block of `hay` (character lists). -/
def charsPre : List Char → List Char → Bool
  | [], _ => true
  | _ :: _, [] => false
  | a :: as, b :: bs => a == b && charsPre as bs

/-- Boolean test that `needle` occurs contiguously somewhere in `hay`. -/
def charsSub (needle : List Char) : List Char → Bool
  | [] => charsPre needle []
  | b :: bs => charsPre needle (b :: bs) || charsSub needle bs

/-- Python's `needle in hay` on strings (substring containment). -/
def strContains (hay needle : String) : Bool :=
  charsSub needle.toList hay.toList

/-- Splitting helper for the spec-modelled payload encodings: cut a character
list at every comma. -/
def splitCommaAux : List Char → List Char → List (List Char)
  | [], acc => [acc.reverse]
  | c :: cs, acc =>
      if c = ',' then acc.reverse :: splitCommaAux cs []
      else splitCommaAux cs (c :: acc)

/-- Decimal reading helper for the spec-modelled payload encodings. -/
def decChars (cs : List Char) : Option Int :=
  if cs = [] then none
  else if cs.all Char.isDigit then
    some (Int.ofNat (cs.foldl (fun n c => 10 * n + (c.toNat - 48)) 0))
  else none

/-- Modelled from the spec: `tado.models.GetMe.from_json` is not under `src`
(only `tado/tado.py` is); the spec treats payload deserialization as an
out-of-scope primitive whose role is to map the raw `me` body to a user record
carrying a home list, the first home's `id` being the one consumed.  We encode
a `me` body as the comma-separated decimal list of the user's home ids (an
empty or non-numeric body denotes a user with no homes). -/
def GetMe.from_json (body : String) : GetMe :=
  { homes := ((splitCommaAux body.toList []).filterMap decChars).map Home.mk }

/-- Modelled from the spec: `orjson.loads` plus `tado.models.Device.from_dict`
are not under `src`; the spec treats this deserialization as out-of-scope
plumbing mapping the raw body to a list of typed records.  We encode the body
as a comma-separated element list. -/
def devices_of_body (body : String) : List Device :=
  (splitCommaAux body.toList []).map (fun cs => ⟨String.mk cs⟩)

/-- The `Tado` dataclass state: the transport session handle (a numeric
handle id; `none` = the Python attribute is `None`), the `_close_session`
ownership flag (`none` = the attribute was never set, so reading it raises
`AttributeError`), the request timeout, the token triple, the home id, and the
memoized `me` record, plus the constructor arguments.  The static headers
dicts (`_headers`, `_access_headers`) are omitted: the source never reads
them when issuing requests. -/
structure Tado where
  session : Option Nat
  close_session : Option Bool
  request_timeout : Int
  access_token : Option String
  token_expiry : Option Int
  refesh_token : Option String
  home_id : Option Int
  me : Option GetMe
  username : String
  password : String
  debug : Bool
  deriving DecidableEq

/-- Embeds the hand-written `Tado.__init__(self, username, password,
debug=False)`.  Note this `__init__` shadows the `@dataclass`-declared fields:
`session` and `request_timeout` are not constructor parameters; they keep the
class-attribute defaults `None` and `10`.  `_close_session` is not set
anywhere in `__init__`. -/
def Tado.init (username password : String) (debug : Bool) : Tado :=
  { session := none
    close_session := none
    request_timeout := 10
    access_token := none
    token_expiry := none
    refesh_token := none
    home_id := none
    me := none
    username := username
    password := password
    debug := debug }

/-- The fixed API host `my.tado.com/api/v2` (class attribute `_api_url`). -/
def api_url : String := "my.tado.com/api/v2"

/-- Embeds `URL.build(scheme="https", host=self._api_url).joinpath(uri)` as
the string join it denotes. -/
def request_url (uri : String) : String :=
  "https://" ++ api_url ++ "/" ++ uri

/-- Embeds `aiohttp` `ClientResponse.raise_for_status`: it raises
`ClientResponseError` exactly when the status is `>= 400` (3xx responses are
not flagged). -/
def raise_for_status (status : Nat) : Bool :=
  decide (400 ≤ status)

/-- Embeds `Tado.check_request_status`: the `{400, 500, 401, 403}` mapping
dict with its message f-strings, and the generic `TadoException` fallback for
any other status. -/
def check_request_status (r : HttpResponse) : TadoError :=
  if r.status = 400 then
    .tadoBadRequestError ("Bad request to Tado. Response body: " ++ r.body)
  else if r.status = 500 then
    .tadoException ("Error " ++ toString r.status ++ " connecting to Tado. Response body: " ++ r.body)
  else if r.status = 401 then
    .tadoAuthenticationError ("Authentication error connecting to Tado. Response body: " ++ r.body)
  else if r.status = 403 then
    .tadoForbiddenError ("Forbidden error connecting to Tado. Response body: " ++ r.body)
  else
    .tadoException ("Error " ++ toString r.status ++ " connecting to Tado. Response body: " ++ r.body)

/-- Embeds `Tado._refresh_auth`.  `now1` is the `time.time()` read in the
guard, `now2` the read used for the new expiry.  With `_token_expiry` unset
(`None`), `time.time() < self._token_expiry - 30` raises `TypeError`.  When a
refresh is due, `self.session.post` on a `None` session raises
`AttributeError`; otherwise the POST outcome `net` is handled by the
`TimeoutError` / `ClientResponseError` handlers, and on success the token
triple is overwritten. -/
def Tado.refresh_auth (s : Tado) (now1 now2 : Int) (net : NetOutcome) :
    Except TadoError Unit × Tado × List NetCall :=
  match s.token_expiry with
  | none => (.error (.pyTypeError "unsupported operand for -: NoneType and int"), s, [])
  | some expiry =>
    if now1 < expiry - 30 then
      (.ok (), s, [])
    else
      match s.session with
      | none => (.error (.pyAttributeError "NoneType object has no attribute post"), s, [])
      | some _ =>
        let calls := [NetCall.tokenRefresh (pyStr s.refesh_token)]
        match net with
        | .timeout =>
            (.error (.tadoConnectionError "Timeout occurred while connecting to Tado."), s, calls)
        | .resp r =>
            if raise_for_status r.status then
              (.error (check_request_status r), s, calls)
            else
              match r.jsonTok with
              | none => (.error (.pyJsonError "token response was not valid JSON"), s, calls)
              | some tok =>
                  (.ok (),
                   { s with
                      access_token := some tok.access_token
                      token_expiry := some (now2 + tok.expires_in)
                      refesh_token := some tok.refresh_token },
                   calls)

/-- Embeds `Tado._request`: refresh the token, build the URL and the
`Authorization: Bearer` header, issue the request (recorded in the trace even
when it then times out), translate errors, and return the raw body text. -/
def Tado.request (s : Tado) (uri : String) (now1 now2 : Int)
    (refreshNet apiNet : NetOutcome) :
    Except TadoError String × Tado × List NetCall :=
  match Tado.refresh_auth s now1 now2 refreshNet with
  | (.error e, s1, calls) => (.error e, s1, calls)
  | (.ok _, s1, calls) =>
      let url := request_url uri
      let auth := "Bearer " ++ pyStr s1.access_token
      match s1.session with
      | none => (.error (.pyAttributeError "NoneType object has no attribute request"), s1, calls)
      | some _ =>
          let calls2 := calls ++ [NetCall.api url auth]
          match apiNet with
          | .timeout =>
              (.error (.tadoConnectionError "Timeout occurred while connecting to Tado."), s1, calls2)
          | .resp r =>
              if raise_for_status r.status then
                (.error (check_request_status r), s1, calls2)
              else
                (.ok r.body, s1, calls2)

/-- Embeds `Tado.get_me`: if `_me` is unset, fetch `me` and memoize the parsed
record; always return the stored record. -/
def Tado.get_me (s : Tado) (now1 now2 : Int) (refreshNet apiNet : NetOutcome) :
    Except TadoError GetMe × Tado × List NetCall :=
  match s.me with
  | some m => (.ok m, s, [])
  | none =>
      match Tado.request s "me" now1 now2 refreshNet apiNet with
      | (.error e, s1, calls) => (.error e, s1, calls)
      | (.ok body, s1, calls) =>
          let m := GetMe.from_json body
          (.ok m, { s1 with me := some m }, calls)

/-- Embeds `Tado._login`.  Acquire or create the session handle (setting
`_close_session = True` when creating), POST the password grant, translate
timeout / error status, check the `content-type` header contains
`application/json`, store the token triple (`tNow` is the `time.time()` read),
then fetch `me` (with its own `time.time()` reads `meNow1`, `meNow2` and its
own network outcomes) and store `homes[0].id` — an `IndexError` when the home
list is empty. -/
def Tado.login (s : Tado) (newHandle : Nat) (tokenNet : NetOutcome) (tNow : Int)
    (meNow1 meNow2 : Int) (meRefreshNet meApiNet : NetOutcome) :
    Except TadoError Unit × Tado × List NetCall :=
  let s1 :=
    match s.session with
    | none => { s with session := some newHandle, close_session := some true }
    | some _ => s
  let call := NetCall.tokenPassword s1.username s1.password
  match tokenNet with
  | .timeout =>
      (.error (.tadoConnectionError "Timeout occurred while connecting to Tado."), s1, [call])
  | .resp r =>
      if raise_for_status r.status then
        (.error (check_request_status r), s1, [call])
      else if strContains r.contentType "application/json" then
        match r.jsonTok with
        | none => (.error (.pyJsonError "token response was not valid JSON"), s1, [call])
        | some tok =>
            let s2 :=
              { s1 with
                  access_token := some tok.access_token
                  token_expiry := some (tNow + tok.expires_in)
                  refesh_token := some tok.refresh_token }
            match Tado.get_me s2 meNow1 meNow2 meRefreshNet meApiNet with
            | (.error e, s3, calls) => (.error e, s3, call :: calls)
            | (.ok gm, s3, calls) =>
                match gm.homes with
                | [] => (.error (.pyIndexError "list index out of range"), s3, call :: calls)
                | h :: _ => (.ok (), { s3 with home_id := some h.id }, call :: calls)
      else
        (.error (.tadoException
          ("Unexpected response from Tado. Content-Type: " ++ r.contentType
            ++ ", Response body: " ++ r.body)), s1, [call])

/-- Embeds `Tado.get_devices`: an authenticated request to
`homes/{home_id}/devices` followed by the (spec-modelled) deserialization. -/
def Tado.get_devices (s : Tado) (now1 now2 : Int) (refreshNet apiNet : NetOutcome) :
    Except TadoError (List Device) × Tado × List NetCall :=
  match Tado.request s ("homes/" ++ pyIntStr s.home_id ++ "/devices") now1 now2 refreshNet apiNet with
  | (.error e, s1, calls) => (.error e, s1, calls)
  | (.ok body, s1, calls) => (.ok (devices_of_body body), s1, calls)

/-- Embeds `Tado.close`: `if self.session and self._close_session: await
self.session.close()`.  Reading `_close_session` when it was never assigned
raises `AttributeError` (short-circuit saves the no-session case).  The `Bool`
reports whether `session.close()` was awaited. -/
def Tado.close (s : Tado) : Except TadoError (Tado × Bool) :=
  match s.session with
  | none => .ok (s, false)
  | some _ =>
      match s.close_session with
      | none => .error (.pyAttributeError "Tado object has no attribute _close_session")
      | some b => if b then .ok (s, true) else .ok (s, false)

/-- Embeds the `async with` use of `Tado`: `__aenter__` runs `_login`; if it
raises, Python never calls `__aexit__`; otherwise `__aexit__` runs `close`.
The `Bool` reports whether the transport handle was closed on the way out. -/
def Tado.sessionScope (s : Tado) (newHandle : Nat) (tokenNet : NetOutcome)
    (tNow meNow1 meNow2 : Int) (meRefreshNet meApiNet : NetOutcome) :
    Except TadoError Unit × Tado × Bool :=
  match Tado.login s newHandle tokenNet tNow meNow1 meNow2 meRefreshNet meApiNet with
  | (.error e, s1, _) => (.error e, s1, false)
  | (.ok _, s1, _) =>
      match Tado.close s1 with
      | .error e => (.error e, s1, false)
      | .ok (s2, closed) => (.ok (), s2, closed)

/-- Constructor tag of a `TadoError`, for stating the status-mapping claims. -/
inductive ErrClass where
  | connection
  | authentication
  | badRequest
  | forbidden
  | generic
  | pythonFault
  deriving DecidableEq

/-- The constructor tag of an error value. -/
def classOf : TadoError → ErrClass
  | .tadoConnectionError _ => .connection
  | .tadoAuthenticationError _ => .authentication
  | .tadoBadRequestError _ => .badRequest
  | .tadoForbiddenError _ => .forbidden
  | .tadoException _ => .generic
  | .pyTypeError _ => .pythonFault
  | .pyAttributeError _ => .pythonFault
  | .pyIndexError _ => .pythonFault
  | .pyJsonError _ => .pythonFault

/-- The HTTP status an error class itself pins down (the specific error
classes are raised for exactly one status each). -/
def statusOfClass : ErrClass → Option Nat
  | .badRequest => some 400
  | .authentication => some 401
  | .forbidden => some 403
  | _ => none

/-- The message string carried by an error. -/
def errMsg : TadoError → String
  | .tadoConnectionError m => m
  | .tadoAuthenticationError m => m
  | .tadoBadRequestError m => m
  | .tadoForbiddenError m => m
  | .tadoException m => m
  | .pyTypeError m => m
  | .pyAttributeError m => m
  | .pyIndexError m => m
  | .pyJsonError m => m

/-- The error carries the response body: its message ends with the body text. -/
def carriesBody (err : TadoError) (body : String) : Prop :=
  ∃ p, errMsg err = p ++ body

/-- The error carries the response status: either its class pins the status
down, or the decimal status appears verbatim in its message. -/
def carriesStatus (err : TadoError) (status : Nat) : Prop :=
  statusOfClass (classOf err) = some status ∨
  ∃ p q, errMsg err = p ++ (toString status ++ q)

/-- The status-to-class mapping in the spec's words (spec-side definition, to
be compared with `check_request_status`). -/
def spec_status_class (status : Nat) : ErrClass :=
  if status = 400 then .badRequest
  else if status = 401 then .authentication
  else if status = 403 then .forbidden
  else .generic

/-- A representative logged-in session state (handle 1, token `"A"`/`"R"`,
expiry at instant 300), used by concrete witnesses. -/
def egSession : Tado :=
  { Tado.init "u" "p" false with
      session := some 1
      access_token := some "A"
      token_expiry := some 300
      refesh_token := some "R" }

/-- C1: with a set token expiry, `_refresh_auth` is a no-op issuing no network
call whenever the current time is strictly more than 30 units before the
stored expiry; otherwise it issues exactly one refresh-grant token request
and, on a successful JSON response, overwrites the access token, refresh
token, and expiry, the new expiry being the new current time (`now2`) plus the
returned `expires_in`. -/
theorem tado_refresh_policy (s : Tado) (expiry now1 now2 : Int) (hdl : Nat)
    (r : HttpResponse) (tok : TokenJson)
    (hexp : s.token_expiry = some expiry)
    (hses : s.session = some hdl)
    (hok : r.status < 400)
    (hjson : r.jsonTok = some tok) :
    (now1 < expiry - 30 →
      ∀ net, Tado.refresh_auth s now1 now2 net = (.ok (), s, [])) ∧
    (expiry - 30 ≤ now1 →
      Tado.refresh_auth s now1 now2 (.resp r) =
        (.ok (),
         { s with
            access_token := some tok.access_token
            token_expiry := some (now2 + tok.expires_in)
            refesh_token := some tok.refresh_token },
         [NetCall.tokenRefresh (pyStr s.refesh_token)])) := by
  constructor
  · intro hfresh net
    simp [Tado.refresh_auth, hexp, hfresh]
  · intro hstale
    have hnf : ¬ now1 < expiry - 30 := by omega
    have hrs : raise_for_status r.status = false := by
      simp only [raise_for_status, decide_eq_false_iff_not]
      omega
    simp [Tado.refresh_auth, hexp, hses, hnf, hrs, hjson]

/-- C1 witness: after a login leaving expiry 300 (login at time 0 with
`expires_in = 300`), a call at time 100 issues no network call and leaves the
state unchanged, while a call at time 271 issues exactly one refresh-grant
request and sets expiry to `271 + 300`. -/
theorem tado_refresh_policy_witness :
    Tado.refresh_auth egSession 100 100 NetOutcome.timeout = (.ok (), egSession, []) ∧
    Tado.refresh_auth egSession 271 271
        (.resp ⟨200, "application/json", "tk", some ⟨"A2", "R2", 300⟩⟩) =
      (.ok (),
       { egSession with
          access_token := some "A2"
          token_expiry := some (271 + 300)
          refesh_token := some "R2" },
       [NetCall.tokenRefresh "R"]) := by
  constructor
  · exact (tado_refresh_policy egSession 300 100 100 1
      ⟨200, "application/json", "tk", some ⟨"A2", "R2", 300⟩⟩ ⟨"A2", "R2", 300⟩
      rfl rfl (by decide) rfl).1 (by decide) NetOutcome.timeout
  · exact (tado_refresh_policy egSession 300 271 271 1
      ⟨200, "application/json", "tk", some ⟨"A2", "R2", 300⟩⟩ ⟨"A2", "R2", 300⟩
      rfl rfl (by decide) rfl).2 (by decide)

/-- C4: calling `_refresh_auth` before any login (token expiry unset, as left
by the constructor) does not produce a clear "not authenticated" failure: the
guard computes `time.time() < None - 30` and crashes with a `TypeError`. -/
theorem tado_refresh_before_login_crash :
    Tado.refresh_auth (Tado.init "u" "p" false) 0 0 NetOutcome.timeout =
      (.error (.pyTypeError "unsupported operand for -: NoneType and int"),
       Tado.init "u" "p" false, []) := rfl

/-- C5: the scoped session does not always release a self-created transport
handle.  Entering the scope with no caller-supplied handle and a token
endpoint that times out creates handle 7 (`close_session = some true`, so the
object owns it), `__aenter__` raises `ConnectionError`, `__aexit__` never
runs, and the handle is not closed (final `Bool` is `false`).  Moreover, with
a caller-supplied handle, leaving the scope crashes in `close` with an
`AttributeError` because `_close_session` was never assigned. -/
theorem tado_close_paths :
    (Tado.sessionScope (Tado.init "u" "p" false) 7 NetOutcome.timeout 0 0 0
        NetOutcome.timeout NetOutcome.timeout =
      (.error (.tadoConnectionError "Timeout occurred while connecting to Tado."),
       { Tado.init "u" "p" false with session := some 7, close_session := some true },
       false)) ∧
    (Tado.close { Tado.init "u" "p" false with session := some 9 } =
      .error (.pyAttributeError "Tado object has no attribute _close_session")) :=
  ⟨rfl, rfl⟩

/-- C10: the hand-written constructor accepts only `(username, password,
debug)`; whatever its arguments, the fresh object always has
`request_timeout = 10`, no transport session, and no `_close_session`
attribute — no timeout value or pre-built session handle can be supplied at
construction. -/
theorem tado_init_fixed_defaults (u p : String) (d : Bool) :
    (Tado.init u p d).request_timeout = 10 ∧
    (Tado.init u p d).session = none ∧
    (Tado.init u p d).close_session = none :=
  ⟨rfl, rfl, rfl⟩

/-- C3: a network attempt that exceeds the configured request timeout raises
`ConnectionError` at each of the three request sites — the login token POST,
the refresh token POST (when a refresh is due), and the authenticated API
request (here with a still-fresh token, so the refresh step is a no-op) —
never a generic or unmapped error. -/
theorem tado_timeout_connection_error :
    (∀ (s : Tado) (hdl : Nat) (tNow m1 m2 : Int) (mr ma : NetOutcome),
      (Tado.login s hdl NetOutcome.timeout tNow m1 m2 mr ma).1 =
        .error (.tadoConnectionError "Timeout occurred while connecting to Tado.")) ∧
    (∀ (s : Tado) (e : Int) (hdl : Nat) (now1 now2 : Int),
      s.token_expiry = some e → s.session = some hdl → e - 30 ≤ now1 →
      (Tado.refresh_auth s now1 now2 NetOutcome.timeout).1 =
        .error (.tadoConnectionError "Timeout occurred while connecting to Tado.")) ∧
    (∀ (s : Tado) (e : Int) (hdl : Nat) (uri : String) (now1 now2 : Int) (rn : NetOutcome),
      s.token_expiry = some e → s.session = some hdl → now1 < e - 30 →
      (Tado.request s uri now1 now2 rn NetOutcome.timeout).1 =
        .error (.tadoConnectionError "Timeout occurred while connecting to Tado.")) := by
  refine ⟨?_, ?_, ?_⟩
  · intro s hdl tNow m1 m2 mr ma
    rfl
  · intro s e hdl now1 now2 hexp hses hstale
    have hnf : ¬ now1 < e - 30 := by omega
    simp [Tado.refresh_auth, hexp, hses, hnf]
  · intro s e hdl uri now1 now2 rn hexp hses hfresh
    simp [Tado.request, Tado.refresh_auth, hexp, hses, hfresh]

/-- C3 witness: concrete timeouts at the three sites. -/
theorem tado_timeout_connection_error_witness :
    (Tado.login (Tado.init "u" "p" false) 1 NetOutcome.timeout 0 0 0
        NetOutcome.timeout NetOutcome.timeout).1 =
      .error (.tadoConnectionError "Timeout occurred while connecting to Tado.") ∧
    (Tado.refresh_auth egSession 271 271 NetOutcome.timeout).1 =
      .error (.tadoConnectionError "Timeout occurred while connecting to Tado.") ∧
    (Tado.request egSession "me" 0 0 NetOutcome.timeout NetOutcome.timeout).1 =
      .error (.tadoConnectionError "Timeout occurred while connecting to Tado.") := by
  refine ⟨?_, ?_, ?_⟩
  · exact tado_timeout_connection_error.1 (Tado.init "u" "p" false) 1 0 0 0
      NetOutcome.timeout NetOutcome.timeout
  · exact tado_timeout_connection_error.2.1 egSession 300 1 271 271 rfl rfl (by decide)
  · exact tado_timeout_connection_error.2.2 egSession 300 1 "me" 0 0
      NetOutcome.timeout rfl rfl (by decide)

/-- C7: `get_me` is memoized.  First part: with a cached record, any later
call returns exactly the cached object, leaves the state unchanged, and
issues no network call.  Second part: with an empty cache, a fresh token, and
a successful `me` response, the first call issues exactly one network request
(the `me` API call) and caches the parsed record, and a second call (any
arguments) returns the identical object with no further request — so the two
calls issue exactly one request in total. -/
theorem tado_get_me_memoized :
    (∀ (s : Tado) (m : GetMe) (n1 n2 : Int) (r1 r2 : NetOutcome),
      s.me = some m → Tado.get_me s n1 n2 r1 r2 = (.ok m, s, [])) ∧
    (∀ (s : Tado) (e : Int) (hdl : Nat) (n1 n2 : Int) (rn : NetOutcome) (r : HttpResponse)
        (a1 a2 : Int) (b1 b2 : NetOutcome),
      s.me = none → s.token_expiry = some e → s.session = some hdl → n1 < e - 30 →
      r.status < 400 →
      Tado.get_me s n1 n2 rn (.resp r) =
        (.ok (GetMe.from_json r.body),
         { s with me := some (GetMe.from_json r.body) },
         [NetCall.api (request_url "me") ("Bearer " ++ pyStr s.access_token)]) ∧
      Tado.get_me { s with me := some (GetMe.from_json r.body) } a1 a2 b1 b2 =
        (.ok (GetMe.from_json r.body),
         { s with me := some (GetMe.from_json r.body) }, [])) := by
  constructor
  · intro s m n1 n2 r1 r2 hme
    simp [Tado.get_me, hme]
  · intro s e hdl n1 n2 rn r a1 a2 b1 b2 hme hexp hses hfresh hok
    have hrs : raise_for_status r.status = false := by
      simp only [raise_for_status, decide_eq_false_iff_not]
      omega
    constructor
    · simp [Tado.get_me, Tado.request, Tado.refresh_auth, hme, hexp, hses, hfresh, hrs]
    · simp [Tado.get_me]

/-- C7 witness: on a logged-in session with an empty cache, two `get_me`
calls: the first issues exactly the one `me` request, the second returns the
identical cached record with no network call. -/
theorem tado_get_me_memoized_witness :
    Tado.get_me egSession 0 0 NetOutcome.timeout
        (.resp ⟨200, "application/json", "42", none⟩) =
      (.ok (GetMe.from_json "42"),
       { egSession with me := some (GetMe.from_json "42") },
       [NetCall.api (request_url "me") "Bearer A"]) ∧
    Tado.get_me { egSession with me := some (GetMe.from_json "42") } 999 999
        NetOutcome.timeout NetOutcome.timeout =
      (.ok (GetMe.from_json "42"),
       { egSession with me := some (GetMe.from_json "42") }, []) := by
  have h := tado_get_me_memoized.2 egSession 300 1 0 0 NetOutcome.timeout
    ⟨200, "application/json", "42", none⟩ 999 999 NetOutcome.timeout NetOutcome.timeout
    rfl rfl rfl (by decide) (by decide)
  exact h

/-- C9: a login token response with a success status whose `content-type` does
not contain `application/json` makes login fail with the generic
`TadoException` whose message carries both the offending content-type and the
raw response body. -/
theorem tado_login_content_type (s : Tado) (hdl : Nat) (st : Nat)
    (ct body : String) (tk : Option TokenJson)
    (tNow m1 m2 : Int) (mr ma : NetOutcome)
    (hok : st < 400)
    (hct : strContains ct "application/json" = false) :
    (Tado.login s hdl (.resp ⟨st, ct, body, tk⟩) tNow m1 m2 mr ma).1 =
      .error (.tadoException
        ("Unexpected response from Tado. Content-Type: " ++ ct
          ++ ", Response body: " ++ body)) ∧
    (∃ p, errMsg (.tadoException
        ("Unexpected response from Tado. Content-Type: " ++ ct
          ++ ", Response body: " ++ body)) = p ++ body) ∧
    (∃ p q, errMsg (.tadoException
        ("Unexpected response from Tado. Content-Type: " ++ ct
          ++ ", Response body: " ++ body)) = p ++ (ct ++ q)) := by
  have hrs : raise_for_status st = false := by
    simp only [raise_for_status, decide_eq_false_iff_not]
    omega
  refine ⟨?_, ⟨_, rfl⟩, ⟨"Unexpected response from Tado. Content-Type: ",
    ", Response body: " ++ body, ?_⟩⟩
  · cases hs : s.session <;> simp [Tado.login, hrs, hct]
  · simp [errMsg, String.append_assoc]

/-- C9 witness: a 200 response with `Content-Type: text/html` and body
`"oops"`. -/
theorem tado_login_content_type_witness :
    (Tado.login (Tado.init "u" "p" false) 1
        (.resp ⟨200, "text/html", "oops", none⟩) 0 0 0
        NetOutcome.timeout NetOutcome.timeout).1 =
      .error (.tadoException
        ("Unexpected response from Tado. Content-Type: " ++ "text/html"
          ++ ", Response body: " ++ "oops")) ∧
    (∃ p, errMsg (.tadoException
        ("Unexpected response from Tado. Content-Type: " ++ "text/html"
          ++ ", Response body: " ++ "oops")) = p ++ "oops") ∧
    (∃ p q, errMsg (.tadoException
        ("Unexpected response from Tado. Content-Type: " ++ "text/html"
          ++ ", Response body: " ++ "oops")) = p ++ ("text/html" ++ q)) := by
  exact tado_login_content_type (Tado.init "u" "p" false) 1 200 "text/html" "oops"
    none 0 0 0 NetOutcome.timeout NetOutcome.timeout (by decide) (by decide)

/-- C2 counterexample: a non-2xx response need not raise any mapped error.
A 304 response at the authenticated-request site is below the transport's
`raise_for_status` threshold (400), so the operation succeeds and returns the
body — no `ServiceError` (nor any error) is raised. -/
theorem tado_status_304_unmapped :
    Tado.request egSession "me" 0 0 NetOutcome.timeout
        (.resp ⟨304, "text/plain", "nm", none⟩) =
      (.ok "nm", egSession, [NetCall.api (request_url "me") "Bearer A"]) := rfl

/-- C2 (amended): for every response with status at least 400 at any of the
three request sites, the raised error is exactly `check_request_status` of
the response: class `BadRequestError` for 400, `AuthenticationError` for 401,
`ForbiddenError` for 403, and the generic `TadoException` for 500 and every
other status ≥ 400; the error's message ends with the response body, and the
status is recoverable — pinned down by the error class for 400/401/403 and
spelled in the message otherwise.  Statuses below 400 (including 3xx) are
never routed through the mapping. -/
theorem tado_status_mapping (status : Nat) (ct body : String) (tk : Option TokenJson)
    (sL sR sQ : Tado) (hdlR hdlQ : Nat) (eR eQ : Int) (hdlL : Nat)
    (tNow m1 m2 now1R now2R now1Q now2Q : Int) (mr ma mrQ : NetOutcome) (uri : String)
    (hst : 400 ≤ status)
    (hexpR : sR.token_expiry = some eR) (hsesR : sR.session = some hdlR)
    (hstale : eR - 30 ≤ now1R)
    (hexpQ : sQ.token_expiry = some eQ) (hsesQ : sQ.session = some hdlQ)
    (hfresh : now1Q < eQ - 30) :
    (Tado.login sL hdlL (.resp ⟨status, ct, body, tk⟩) tNow m1 m2 mr ma).1 =
        .error (check_request_status ⟨status, ct, body, tk⟩) ∧
    (Tado.refresh_auth sR now1R now2R (.resp ⟨status, ct, body, tk⟩)).1 =
        .error (check_request_status ⟨status, ct, body, tk⟩) ∧
    (Tado.request sQ uri now1Q now2Q mrQ (.resp ⟨status, ct, body, tk⟩)).1 =
        .error (check_request_status ⟨status, ct, body, tk⟩) ∧
    classOf (check_request_status ⟨status, ct, body, tk⟩) = spec_status_class status ∧
    carriesBody (check_request_status ⟨status, ct, body, tk⟩) body ∧
    carriesStatus (check_request_status ⟨status, ct, body, tk⟩) status := by
  have hrs : raise_for_status status = true := by
    simp only [raise_for_status, decide_eq_true_eq]
    omega
  refine ⟨?_, ?_, ?_, ?_, ?_, ?_⟩
  · cases hs : sL.session <;> simp [Tado.login, hrs]
  · have hnf : ¬ now1R < eR - 30 := by omega
    simp [Tado.refresh_auth, hexpR, hsesR, hnf, hrs]
  · simp [Tado.request, Tado.refresh_auth, hexpQ, hsesQ, hfresh, hrs]
  · simp only [check_request_status, spec_status_class]
    split_ifs <;> simp_all [classOf]
  · simp only [check_request_status]
    split_ifs <;> exact ⟨_, rfl⟩
  · simp only [check_request_status, carriesStatus]
    split_ifs with h1 h2 h3 h4
    · left
      simp [classOf, statusOfClass, h1]
    · right
      refine ⟨"Error ", " connecting to Tado. Response body: " ++ body, ?_⟩
      simp [errMsg, String.append_assoc]
    · left
      simp [classOf, statusOfClass, h3]
    · left
      simp [classOf, statusOfClass, h4]
    · right
      refine ⟨"Error ", " connecting to Tado. Response body: " ++ body, ?_⟩
      simp [errMsg, String.append_assoc]

/-- C2 witness: the amended mapping at status 404 with body `"nf"`, at the
three concrete sites. -/
theorem tado_status_mapping_witness :
    (Tado.login (Tado.init "u" "p" false) 1
        (.resp ⟨404, "text/plain", "nf", none⟩) 0 0 0
        NetOutcome.timeout NetOutcome.timeout).1 =
      .error (check_request_status ⟨404, "text/plain", "nf", none⟩) ∧
    (Tado.refresh_auth egSession 271 271
        (.resp ⟨404, "text/plain", "nf", none⟩)).1 =
      .error (check_request_status ⟨404, "text/plain", "nf", none⟩) ∧
    (Tado.request egSession "me" 0 0 NetOutcome.timeout
        (.resp ⟨404, "text/plain", "nf", none⟩)).1 =
      .error (check_request_status ⟨404, "text/plain", "nf", none⟩) ∧
    classOf (check_request_status ⟨404, "text/plain", "nf", none⟩) =
      spec_status_class 404 ∧
    carriesBody (check_request_status ⟨404, "text/plain", "nf", none⟩) "nf" ∧
    carriesStatus (check_request_status ⟨404, "text/plain", "nf", none⟩) 404 := by
  exact tado_status_mapping 404 "text/plain" "nf" none
    (Tado.init "u" "p" false) egSession egSession 1 1 300 300 1
    0 0 0 271 271 0 0 NetOutcome.timeout NetOutcome.timeout NetOutcome.timeout "me"
    (by decide) rfl rfl (by decide) rfl rfl (by decide)

/-- C8 counterexample: with an authenticated user whose home list is empty,
login neither raises a `ProtocolError` (generic `TadoException`) nor
propagates a data-fetch failure — the `me` fetch itself succeeded with status
200 — it crashes on `homes[0]` with a raw `IndexError`, a Python fault
outside the library's error taxonomy. -/
theorem tado_empty_homes_counterexample :
    (Tado.login (Tado.init "u" "p" false) 1
        (.resp ⟨200, "application/json", "tk", some ⟨"A", "R", 600⟩⟩) 0 0 0
        NetOutcome.timeout (.resp ⟨200, "application/json", "", none⟩)).1 =
      .error (.pyIndexError "list index out of range") ∧
    classOf (.pyIndexError "list index out of range") = ErrClass.pythonFault :=
  ⟨rfl, rfl⟩

/-- C8 (amended): if the authenticated user's home list is empty, login does
fail rather than complete — but by raising a raw `IndexError` (`list index
out of range`) from `homes[0]`, not a `ProtocolError` and not a propagated
fetch failure. -/
theorem tado_empty_homes (u p : String) (d : Bool) (hdl : Nat)
    (tBody meBody : String) (tNow : Int) (mr : NetOutcome)
    (hME : (GetMe.from_json meBody).homes = []) :
    (Tado.login (Tado.init u p d) hdl
        (.resp ⟨200, "application/json", tBody, some ⟨"A", "R", 600⟩⟩)
        tNow tNow tNow mr (.resp ⟨200, "application/json", meBody, none⟩)).1 =
      .error (.pyIndexError "list index out of range") := by
  have hf : tNow < tNow + (600 : Int) - 30 := by omega
  have hct : strContains "application/json" "application/json" = true := by decide
  simp [Tado.login, Tado.get_me, Tado.request, Tado.refresh_auth, Tado.init,
    raise_for_status, hct, hf, hME]

/-- C8 witness: the amended claim at the concrete empty-homes body. -/
theorem tado_empty_homes_witness :
    (Tado.login (Tado.init "u2" "p2" false) 3
        (.resp ⟨200, "application/json", "tk", some ⟨"A", "R", 600⟩⟩)
        50 50 50 NetOutcome.timeout
        (.resp ⟨200, "application/json", "", none⟩)).1 =
      .error (.pyIndexError "list index out of range") := by
  exact tado_empty_homes "u2" "p2" false 3 "tk" "" 50 NetOutcome.timeout (by decide)

/-- Every network call `_refresh_auth` ever issues is a refresh-grant token
POST. -/
theorem refresh_auth_calls (s : Tado) (now1 now2 : Int) (net : NetOutcome) :
    ∀ c ∈ (Tado.refresh_auth s now1 now2 net).2.2, ∃ rt, c = NetCall.tokenRefresh rt := by
  intro c hc
  cases hexp : s.token_expiry with
  | none => simp [Tado.refresh_auth, hexp] at hc
  | some e =>
    by_cases hf : now1 < e - 30
    · simp [Tado.refresh_auth, hexp, hf] at hc
    · cases hses : s.session with
      | none => simp [Tado.refresh_auth, hexp, hf, hses] at hc
      | some hdl =>
        cases net with
        | timeout =>
          simp [Tado.refresh_auth, hexp, hf, hses] at hc
          exact ⟨_, hc⟩
        | resp r =>
          by_cases hrs : raise_for_status r.status = true
          · simp [Tado.refresh_auth, hexp, hf, hses, hrs] at hc
            exact ⟨_, hc⟩
          · cases hjs : r.jsonTok with
            | none =>
              simp [Tado.refresh_auth, hexp, hf, hses, hrs, hjs] at hc
              exact ⟨_, hc⟩
            | some tok =>
              simp [Tado.refresh_auth, hexp, hf, hses, hrs, hjs] at hc
              exact ⟨_, hc⟩

/-- Every authenticated API call `_request uri` issues targets the URL built
from `uri`. -/
theorem request_api_calls (s : Tado) (uri : String) (now1 now2 : Int)
    (rn an : NetOutcome) :
    ∀ url auth, NetCall.api url auth ∈ (Tado.request s uri now1 now2 rn an).2.2 →
      url = request_url uri := by
  intro url auth hmem
  rcases hR : Tado.refresh_auth s now1 now2 rn with ⟨res, s1, calls⟩
  have hcalls : ∀ c ∈ calls, ∃ rt, c = NetCall.tokenRefresh rt := by
    intro c hc
    exact refresh_auth_calls s now1 now2 rn c (by rw [hR]; exact hc)
  cases res with
  | error e =>
    simp only [Tado.request, hR] at hmem
    obtain ⟨rt, hrt⟩ := hcalls _ hmem
    exact absurd hrt (by simp)
  | ok uu =>
    cases hses : s1.session with
    | none =>
      simp only [Tado.request, hR, hses] at hmem
      obtain ⟨rt, hrt⟩ := hcalls _ hmem
      exact absurd hrt (by simp)
    | some hdl =>
      have hfin : NetCall.api url auth ∈
          calls ++ [NetCall.api (request_url uri) ("Bearer " ++ pyStr s1.access_token)] := by
        cases an with
        | timeout =>
          simpa only [Tado.request, hR, hses] using hmem
        | resp r =>
          by_cases hrs : raise_for_status r.status = true <;>
            simp only [Tado.request, hR, hses, hrs] at hmem <;>
            simpa using hmem
      rcases List.mem_append.mp hfin with h | h
      · obtain ⟨rt, hrt⟩ := hcalls _ h
        exact absurd hrt (by simp)
      · simp only [List.mem_singleton] at h
        injection h with h1 h2

/-- `get_devices` issues exactly the network calls of the underlying
`_request` on `homes/{home_id}/devices`. -/
theorem get_devices_calls (s : Tado) (n1 n2 : Int) (rn an : NetOutcome) :
    (Tado.get_devices s n1 n2 rn an).2.2 =
      (Tado.request s ("homes/" ++ pyIntStr s.home_id ++ "/devices") n1 n2 rn an).2.2 := by
  unfold Tado.get_devices
  rcases h : Tado.request s ("homes/" ++ pyIntStr s.home_id ++ "/devices") n1 n2 rn an
    with ⟨res, s1, calls⟩
  cases res <;> simp

/-- C6: logging in from a fresh object against a token endpoint answering
`{access_token: "A", refresh_token: "R", expires_in: 600}` and a `me`
endpoint denoting a user whose home list is `[{id: 42}]` succeeds, stores
home id 42 (the first home's id), and issues exactly the password-grant call
and the `me` call; afterwards every `get_devices` call targets only the URL
of path `homes/42/devices`, and a call with a still-fresh token issues
exactly one request, to that path, with the stored bearer token. -/
theorem tado_login_home_devices (u p : String) (d : Bool) (hdl : Nat)
    (tBody meBody : String) (tNow : Int) (mr : NetOutcome)
    (hME : GetMe.from_json meBody = ⟨[⟨42⟩]⟩) :
    Tado.login (Tado.init u p d) hdl
        (.resp ⟨200, "application/json", tBody, some ⟨"A", "R", 600⟩⟩)
        tNow tNow tNow mr (.resp ⟨200, "application/json", meBody, none⟩) =
      (.ok (),
       { Tado.init u p d with
          session := some hdl
          close_session := some true
          access_token := some "A"
          token_expiry := some (tNow + 600)
          refesh_token := some "R"
          home_id := some 42
          me := some ⟨[⟨42⟩]⟩ },
       [NetCall.tokenPassword u p, NetCall.api (request_url "me") "Bearer A"]) ∧
    (∀ (dn1 dn2 : Int) (drn dnet : NetOutcome) (url auth : String),
      NetCall.api url auth ∈
        (Tado.get_devices
          (Tado.login (Tado.init u p d) hdl
            (.resp ⟨200, "application/json", tBody, some ⟨"A", "R", 600⟩⟩)
            tNow tNow tNow mr (.resp ⟨200, "application/json", meBody, none⟩)).2.1
          dn1 dn2 drn dnet).2.2 →
      url = request_url "homes/42/devices") ∧
    (∀ (dn1 dn2 : Int) (drn dnet : NetOutcome), dn1 < tNow + 600 - 30 →
      (Tado.get_devices
          (Tado.login (Tado.init u p d) hdl
            (.resp ⟨200, "application/json", tBody, some ⟨"A", "R", 600⟩⟩)
            tNow tNow tNow mr (.resp ⟨200, "application/json", meBody, none⟩)).2.1
          dn1 dn2 drn dnet).2.2 =
        [NetCall.api (request_url "homes/42/devices") "Bearer A"]) := by
  have hct : strContains "application/json" "application/json" = true := by decide
  have hf : tNow < tNow + (600 : Int) - 30 := by omega
  have hL : Tado.login (Tado.init u p d) hdl
      (.resp ⟨200, "application/json", tBody, some ⟨"A", "R", 600⟩⟩)
      tNow tNow tNow mr (.resp ⟨200, "application/json", meBody, none⟩) =
    (.ok (),
     { Tado.init u p d with
        session := some hdl
        close_session := some true
        access_token := some "A"
        token_expiry := some (tNow + 600)
        refesh_token := some "R"
        home_id := some 42
        me := some ⟨[⟨42⟩]⟩ },
     [NetCall.tokenPassword u p, NetCall.api (request_url "me") "Bearer A"]) := by
    simp [Tado.login, Tado.get_me, Tado.request, Tado.refresh_auth, Tado.init,
      raise_for_status, hct, hf, hME, pyStr]
  refine ⟨hL, ?_, ?_⟩
  · intro dn1 dn2 drn dnet url auth hmem
    rw [hL] at hmem
    rw [get_devices_calls] at hmem
    have := request_api_calls _ _ dn1 dn2 drn dnet url auth hmem
    simpa using this
  · intro dn1 dn2 drn dnet hfr
    rw [hL]
    have hfr2 : dn1 < tNow + (600 : Int) - 30 := hfr
    cases dnet with
    | timeout =>
      simp [Tado.get_devices, Tado.request, Tado.refresh_auth, hfr2, pyStr]
      rfl
    | resp r =>
      by_cases hrs : raise_for_status r.status = true <;>
        simp [Tado.get_devices, Tado.request, Tado.refresh_auth, hfr2, hrs, pyStr] <;>
        rfl

/-- C6 witness: the end-to-end scenario at concrete values (login at time 0,
`get_devices` at time 100). -/
theorem tado_login_home_devices_witness :
    Tado.login (Tado.init "u" "p" false) 1
        (.resp ⟨200, "application/json", "tk", some ⟨"A", "R", 600⟩⟩)
        0 0 0 NetOutcome.timeout
        (.resp ⟨200, "application/json", "42", none⟩) =
      (.ok (),
       { Tado.init "u" "p" false with
          session := some 1
          close_session := some true
          access_token := some "A"
          token_expiry := some (0 + 600)
          refesh_token := some "R"
          home_id := some 42
          me := some ⟨[⟨42⟩]⟩ },
       [NetCall.tokenPassword "u" "p", NetCall.api (request_url "me") "Bearer A"]) ∧
    (Tado.get_devices
        (Tado.login (Tado.init "u" "p" false) 1
          (.resp ⟨200, "application/json", "tk", some ⟨"A", "R", 600⟩⟩)
          0 0 0 NetOutcome.timeout
          (.resp ⟨200, "application/json", "42", none⟩)).2.1
        100 100 NetOutcome.timeout NetOutcome.timeout).2.2 =
      [NetCall.api (request_url "homes/42/devices") "Bearer A"] := by
  have h := tado_login_home_devices "u" "p" false 1 "tk" "42" 0
    NetOutcome.timeout (by decide)
  exact ⟨h.1, h.2.2 100 100 NetOutcome.timeout NetOutcome.timeout (by decide)⟩
